import Mathlib

/-
  Verification of the fsmonitor settings resolver (fsmonitor-settings.c).

  The C module resolves, caches and exposes the effective fsmonitor
  configuration for a repository: the mode (disabled / IPC / hook /
  incompatible), a reason code for incompatibility, and an optional hook
  pathname.  We embed the module shallowly: the fixed inputs of a
  repository context (worktree, config keys, environment) form `RepoCtx`,
  the mutable per-process state (the lazily allocated settings struct and
  the advisory-suppression environment variable) forms `SysState`, and
  each C function becomes a Lean function on these types.
-/

/-- Modelled from the spec: the `enum fsmonitor_mode` declaration lives in
fsmonitor-settings.h, which is not part of the given source; the spec lists
the four modes Disabled, IPC, Hook, Incompatible. -/
inductive FsmonitorMode where
  | disabled
  | ipc
  | hook
  | incompatible
deriving DecidableEq

/-- Modelled from the spec: the `enum fsmonitor_reason` declaration lives in
fsmonitor-settings.h, which is not part of the given source; the spec lists
the six reasons Ok, Bare, Error, Remote, VFS, NoSockets, in this order. -/
inductive FsmonitorReason where
  | ok
  | bare
  | err
  | remote
  | vfs4git
  | nosockets
deriving DecidableEq

/-- The tri-state result of `repo_config_get_maybe_bool` on "core.fsmonitor":
return value 0 means the config value parsed as a boolean, 1 means the key
was unset, -1 means the value is an arbitrary string. -/
inductive ConfigTri where
  | bool (b : Bool)
  | unset
  | str (v : String)
deriving DecidableEq

/-- The fixed inputs of one repository context: `r->worktree` (`none` for a
bare repository), the current working directory (used by `xgetcwd` in error
messages), the "core.fsmonitor" config value, the deprecated
"core.useBuiltinFSMonitor" boolean config value (`none` when unset), the
GIT_TEST_FSMONITOR environment variable, and the platform probe
`fsm_os__incompatible` (`none` models a build without
HAVE_FSMONITOR_OS_SETTINGS). -/
structure RepoCtx where
  worktree : Option String
  cwd : String
  coreFsmonitor : ConfigTri
  useBuiltinFSMonitor : Option Bool
  gitTestFsmonitor : Option String
  osProbe : Option FsmonitorReason
deriving DecidableEq

/-- `struct fsmonitor_settings`: mode, reason and the owned hook pathname. -/
structure FsmonitorSettings where
  mode : FsmonitorMode
  reason : FsmonitorReason
  hook_path : Option String
deriving DecidableEq

/-- The freshly calloc-ed settings struct as initialized by
`lookup_fsmonitor_settings`: mode DISABLED, reason OK, NULL hook path. -/
def freshSettings : FsmonitorSettings :=
  ⟨FsmonitorMode.disabled, FsmonitorReason.ok, none⟩

/-- The mutable state: `r->settings.fsmonitor` (`none` before lazy
initialization), the boolean value of the
GIT_SUPPRESS_USEBUILTINFSMONITOR_ADVICE environment variable, and a ghost
counter of how many times the deprecation advisory has been emitted. -/
structure SysState where
  fsmonitor : Option FsmonitorSettings
  suppressAdvice : Bool
  adviceCount : Nat
deriving DecidableEq

/-- `set_incompatible`: pin the mode to INCOMPATIBLE with the given reason. -/
def set_incompatible (reason : FsmonitorReason) (s : FsmonitorSettings) :
    FsmonitorSettings :=
  { s with mode := FsmonitorMode.incompatible, reason := reason }

/-- `check_for_incompatible`: a bare repository (no worktree) pins reason
BARE; otherwise, on platforms with HAVE_FSMONITOR_OS_SETTINGS, a non-OK
probe result pins that reason.  Returns 1 (true) when incompatible. -/
def check_for_incompatible (r : RepoCtx) (s : FsmonitorSettings) :
    Bool × FsmonitorSettings :=
  match r.worktree with
  | none => (true, set_incompatible FsmonitorReason.bare s)
  | some _ =>
    match r.osProbe with
    | some reason =>
        if reason ≠ FsmonitorReason.ok then (true, set_incompatible reason s)
        else (false, s)
    | none => (false, s)

/-- The incompatibility verdict of a context, independent of the settings
struct: `none` when `check_for_incompatible` returns 0, otherwise the reason
it pins. -/
def incompatReason (r : RepoCtx) : Option FsmonitorReason :=
  match r.worktree with
  | none => some FsmonitorReason.bare
  | some _ =>
    match r.osProbe with
    | some reason =>
        if reason ≠ FsmonitorReason.ok then some reason else none
    | none => none

/-- Body of `fsm_settings__set_ipc` after the lazy lookup (the settings
struct already exists): gate on `check_for_incompatible`, then set mode IPC
and free the hook path. -/
def set_ipc_core (r : RepoCtx) (s : FsmonitorSettings) : FsmonitorSettings :=
  match check_for_incompatible r s with
  | (true, s) => s
  | (false, s) => { s with mode := FsmonitorMode.ipc, hook_path := none }

/-- Body of `fsm_settings__set_hook` after the lazy lookup: gate on
`check_for_incompatible`, then set mode HOOK and replace the hook path with
a copy of `path`.  Note that the reason field is not written. -/
def set_hook_core (r : RepoCtx) (path : String) (s : FsmonitorSettings) :
    FsmonitorSettings :=
  match check_for_incompatible r s with
  | (true, s) => s
  | (false, s) => { s with mode := FsmonitorMode.hook, hook_path := some path }

/-- Body of `fsm_settings__set_disabled` after the lazy lookup: mode
DISABLED, reason OK, hook path freed, with no incompatibility gate. -/
def set_disabled_core (s : FsmonitorSettings) : FsmonitorSettings :=
  { s with mode := FsmonitorMode.disabled, reason := FsmonitorReason.ok,
           hook_path := none }

/-- The advisory block of `check_deprecated_builtin_config`: when the
GIT_SUPPRESS_USEBUILTINFSMONITOR_ADVICE environment variable is not yet
true, call `advise_if_enabled` (counted) and setenv the variable to "1". -/
def adviceUpdate (suppress : Bool) (count : Nat) : Bool × Nat :=
  if suppress = false then (true, count + 1) else (suppress, count)

/-- `check_deprecated_builtin_config`: when "core.useBuiltinFSMonitor" is
set, run the advisory block, and if the value is true call set_ipc and
return 1 (handled); when the value is false, or the key is unset, return 0.
The function runs with the settings struct already installed, so the nested
lazy lookup inside `fsm_settings__set_ipc` is a no-op; we therefore apply
`set_ipc_core` directly to the settings component. -/
def check_deprecated_builtin_config (r : RepoCtx) (s : FsmonitorSettings)
    (suppress : Bool) (count : Nat) :
    Bool × FsmonitorSettings × Bool × Nat :=
  match r.useBuiltinFSMonitor with
  | some coreUseBuiltinFSMonitor =>
      if coreUseBuiltinFSMonitor then
        (true, set_ipc_core r s,
         (adviceUpdate suppress count).1, (adviceUpdate suppress count).2)
      else
        (false, s,
         (adviceUpdate suppress count).1, (adviceUpdate suppress count).2)
  | none => (false, s, suppress, count)

/-- The resolution performed by `lookup_fsmonitor_settings` on a fresh
(calloc-ed, DISABLED/OK) settings struct: switch on the tri-state value of
"core.fsmonitor"; a boolean ends resolution (true → set_ipc); unset →
deprecated alias, then the GIT_TEST_FSMONITOR environment variable; a string
→ deprecated alias, then `repo_config_get_pathname` of the same key (the key
is set to that string, so the pathname lookup yields it); a NULL or empty
pathname leaves the defaults, otherwise set_hook.  Returns the settings plus
the updated advisory state. -/
def resolveFresh (r : RepoCtx) (suppress : Bool) (count : Nat) :
    FsmonitorSettings × Bool × Nat :=
  match r.coreFsmonitor with
  | ConfigTri.bool b =>
      ((if b then set_ipc_core r freshSettings else freshSettings),
       suppress, count)
  | ConfigTri.unset =>
      match check_deprecated_builtin_config r freshSettings suppress count with
      | (true, s, sup, cnt) => (s, sup, cnt)
      | (false, s, sup, cnt) =>
          match r.gitTestFsmonitor with
          | none => (s, sup, cnt)
          | some str =>
              ((if str = "" then s else set_hook_core r str s), sup, cnt)
  | ConfigTri.str v =>
      match check_deprecated_builtin_config r freshSettings suppress count with
      | (true, s, sup, cnt) => (s, sup, cnt)
      | (false, s, sup, cnt) =>
          ((if v = "" then s else set_hook_core r v s), sup, cnt)

/-- `lookup_fsmonitor_settings`: no-op when `r->settings.fsmonitor` is
already populated; otherwise install a fresh struct and resolve it. -/
def lookup_fsmonitor_settings (r : RepoCtx) (st : SysState) : SysState :=
  match st.fsmonitor with
  | some _ => st
  | none =>
      ⟨some (resolveFresh r st.suppressAdvice st.adviceCount).1,
       (resolveFresh r st.suppressAdvice st.adviceCount).2.1,
       (resolveFresh r st.suppressAdvice st.adviceCount).2.2⟩

/-- `fsm_settings__get_mode`: lazy lookup, then return the cached mode. -/
def fsm_settings__get_mode (r : RepoCtx) (st : SysState) :
    FsmonitorMode × SysState :=
  ((((lookup_fsmonitor_settings r st).fsmonitor).getD freshSettings).mode,
   lookup_fsmonitor_settings r st)

/-- `fsm_settings__get_hook_path`: lazy lookup, then return the cached hook
path. -/
def fsm_settings__get_hook_path (r : RepoCtx) (st : SysState) :
    Option String × SysState :=
  ((((lookup_fsmonitor_settings r st).fsmonitor).getD freshSettings).hook_path,
   lookup_fsmonitor_settings r st)

/-- `fsm_settings__get_reason`: lazy lookup, then return the cached reason. -/
def fsm_settings__get_reason (r : RepoCtx) (st : SysState) :
    FsmonitorReason × SysState :=
  ((((lookup_fsmonitor_settings r st).fsmonitor).getD freshSettings).reason,
   lookup_fsmonitor_settings r st)

/-- `fsm_settings__set_ipc`: lazy lookup, then apply the incompatibility
gate and, when compatible, switch the cached settings to IPC. -/
def fsm_settings__set_ipc (r : RepoCtx) (st : SysState) : SysState :=
  match (lookup_fsmonitor_settings r st).fsmonitor with
  | some s =>
      { lookup_fsmonitor_settings r st with fsmonitor := some (set_ipc_core r s) }
  | none => lookup_fsmonitor_settings r st

/-- `fsm_settings__set_hook`: lazy lookup, then apply the incompatibility
gate and, when compatible, switch the cached settings to HOOK with the given
path. -/
def fsm_settings__set_hook (r : RepoCtx) (path : String) (st : SysState) :
    SysState :=
  match (lookup_fsmonitor_settings r st).fsmonitor with
  | some s =>
      { lookup_fsmonitor_settings r st with
          fsmonitor := some (set_hook_core r path s) }
  | none => lookup_fsmonitor_settings r st

/-- `fsm_settings__set_disabled`: lazy lookup, then unconditionally set the
cached settings to DISABLED / OK / no hook path. -/
def fsm_settings__set_disabled (r : RepoCtx) (st : SysState) : SysState :=
  match (lookup_fsmonitor_settings r st).fsmonitor with
  | some s =>
      { lookup_fsmonitor_settings r st with
          fsmonitor := some (set_disabled_core s) }
  | none => lookup_fsmonitor_settings r st

/-- Modelled from the spec: the integer discriminants of
`enum fsmonitor_reason` follow the declaration order given in the spec
(Ok, Bare, Error, Remote, VFS, NoSockets), since the header with the enum
declaration is not part of the given source. -/
def reasonCode : FsmonitorReason → Int
  | FsmonitorReason.ok => 0
  | FsmonitorReason.bare => 1
  | FsmonitorReason.err => 2
  | FsmonitorReason.remote => 3
  | FsmonitorReason.vfs4git => 4
  | FsmonitorReason.nosockets => 5

/-- The switch of `fsm_settings__error_if_incompatible` on the (integer)
reason value: REASON_OK returns 0 with no message; each recognized
incompatibility reason calls `error(...)` with its fixed template and
returns 1; any other integer value falls through to `BUG(...)`, which aborts
the process — modelled as `none`.  `cwd` stands for `xgetcwd()` and `wt` for
`r->worktree` in the message templates. -/
def error_switch (cwd wt : String) (code : Int) : Option (Nat × Option String) :=
  if code = 0 then some (0, none)
  else if code = 1 then
    some (1, some ("bare repository " ++ cwd ++ " is incompatible with fsmonitor"))
  else if code = 2 then
    some (1, some ("repository " ++ wt ++ " is incompatible with fsmonitor due to errors"))
  else if code = 3 then
    some (1, some ("remote repository " ++ wt ++ " is incompatible with fsmonitor"))
  else if code = 4 then
    some (1, some ("virtual repository " ++ wt ++ " is incompatible with fsmonitor"))
  else if code = 5 then
    some (1, some ("repository " ++ wt ++ " is incompatible with fsmonitor due to lack of Unix sockets"))
  else none

/-- `fsm_settings__error_if_incompatible`: obtain the reason via
`fsm_settings__get_reason` (which performs the lazy lookup — the only state
change) and dispatch on it.  The first component is `none` exactly when the
C code would reach the `BUG` abort. -/
def fsm_settings__error_if_incompatible (r : RepoCtx) (st : SysState) :
    Option (Nat × Option String) × SysState :=
  (error_switch r.cwd (r.worktree.getD "")
     (reasonCode (fsm_settings__get_reason r st).1),
   (fsm_settings__get_reason r st).2)

/-- One public operation of the module, as a step on the mutable state of a
fixed repository context.  `set_hook` is restricted to a non-empty path, as
the spec requires of its argument. -/
inductive Step (r : RepoCtx) : SysState → SysState → Prop where
  | get_mode (st : SysState) : Step r st (fsm_settings__get_mode r st).2
  | get_hook_path (st : SysState) : Step r st (fsm_settings__get_hook_path r st).2
  | get_reason (st : SysState) : Step r st (fsm_settings__get_reason r st).2
  | set_ipc (st : SysState) : Step r st (fsm_settings__set_ipc r st)
  | set_hook (st : SysState) (p : String) (hp : p ≠ "") :
      Step r st (fsm_settings__set_hook r p st)
  | set_disabled (st : SysState) : Step r st (fsm_settings__set_disabled r st)
  | error_if_incompatible (st : SysState) :
      Step r st (fsm_settings__error_if_incompatible r st).2

/-- The states reachable in one process for a fixed repository context: the
settings struct starts unallocated, the advisory counter starts at zero (no
advisory emitted yet), the suppression environment variable may start with
either value, and then any sequence of public operations runs. -/
inductive Reach (r : RepoCtx) : SysState → Prop where
  | init (b : Bool) : Reach r ⟨none, b, 0⟩
  | step {st st' : SysState} : Reach r st → Step r st st' → Reach r st'

/-- Structural invariant of a cached settings struct: the hook path is a
non-empty string exactly in HOOK mode and NULL otherwise. -/
def hookInv (s : FsmonitorSettings) : Prop :=
  (s.mode = FsmonitorMode.hook → ∃ p, s.hook_path = some p ∧ p ≠ "") ∧
  (s.mode ≠ FsmonitorMode.hook → s.hook_path = none)

/-- Invariant tying a cached settings struct to the fixed incompatibility
verdict of its context: in a compatible context the mode is never
INCOMPATIBLE and the reason stays OK; in an incompatible context the struct
is either pinned (INCOMPATIBLE with the context reason) or still at
DISABLED / OK. -/
def modeInv (r : RepoCtx) (s : FsmonitorSettings) : Prop :=
  (incompatReason r = none →
     s.mode ≠ FsmonitorMode.incompatible ∧ s.reason = FsmonitorReason.ok) ∧
  (∀ rs, incompatReason r = some rs →
     (s.mode = FsmonitorMode.incompatible ∧ s.reason = rs) ∨
     (s.mode = FsmonitorMode.disabled ∧ s.reason = FsmonitorReason.ok))

/-- Full settings invariant. -/
def settingsInv (r : RepoCtx) (s : FsmonitorSettings) : Prop :=
  hookInv s ∧ modeInv r s

/-- Full state invariant: the cached settings (when allocated) satisfy
`settingsInv`, the advisory fired at most once, and it has not fired while
the suppression variable is still false. -/
def SysInv (r : RepoCtx) (st : SysState) : Prop :=
  (∀ s, st.fsmonitor = some s → settingsInv r s) ∧
  st.adviceCount ≤ 1 ∧
  (st.suppressAdvice = false → st.adviceCount = 0)

lemma check_for_incompatible_eq (r : RepoCtx) (s : FsmonitorSettings) :
    check_for_incompatible r s =
      match incompatReason r with
      | none => (false, s)
      | some rs => (true, set_incompatible rs s) := by
  unfold check_for_incompatible incompatReason
  cases r.worktree with
  | none => rfl
  | some w =>
    cases r.osProbe with
    | none => rfl
    | some reason =>
      by_cases h : reason = FsmonitorReason.ok <;> simp [h]

lemma set_ipc_core_eq (r : RepoCtx) (s : FsmonitorSettings) :
    set_ipc_core r s =
      match incompatReason r with
      | none => { s with mode := FsmonitorMode.ipc, hook_path := none }
      | some rs => set_incompatible rs s := by
  unfold set_ipc_core
  rw [check_for_incompatible_eq]
  cases incompatReason r <;> rfl

lemma set_hook_core_eq (r : RepoCtx) (p : String) (s : FsmonitorSettings) :
    set_hook_core r p s =
      match incompatReason r with
      | none => { s with mode := FsmonitorMode.hook, hook_path := some p }
      | some rs => set_incompatible rs s := by
  unfold set_hook_core
  rw [check_for_incompatible_eq]
  cases incompatReason r <;> rfl

lemma settingsInv_fresh (r : RepoCtx) : settingsInv r freshSettings := by
  refine ⟨⟨?_, ?_⟩, ?_, ?_⟩ <;> simp [freshSettings]

lemma settingsInv_set_ipc_core (r : RepoCtx) (s : FsmonitorSettings)
    (h : settingsInv r s) : settingsInv r (set_ipc_core r s) := by
  obtain ⟨⟨hh1, hh2⟩, hm1, hm2⟩ := h
  rw [set_ipc_core_eq]
  cases hr : incompatReason r with
  | none =>
      refine ⟨⟨?_, ?_⟩, ?_, ?_⟩
      · intro hc; exact absurd hc (by simp)
      · intro _; rfl
      · intro _; exact ⟨by simp, (hm1 hr).2⟩
      · intro rs hrs; rw [hr] at hrs; exact absurd hrs (by simp)
  | some rs =>
      have hpath : s.hook_path = none := by
        rcases hm2 rs hr with ⟨hm, _⟩ | ⟨hm, _⟩ <;>
          · exact hh2 (by rw [hm]; simp)
      refine ⟨⟨?_, ?_⟩, ?_, ?_⟩
      · intro hc; exact absurd hc (by simp [set_incompatible])
      · intro _; simpa [set_incompatible] using hpath
      · intro hn; rw [hr] at hn; exact absurd hn (by simp)
      · intro rs' hrs'; rw [hr] at hrs'
        left
        refine ⟨rfl, ?_⟩
        simpa [set_incompatible] using Option.some.inj hrs'

lemma settingsInv_set_hook_core (r : RepoCtx) (p : String) (hp : p ≠ "")
    (s : FsmonitorSettings) (h : settingsInv r s) :
    settingsInv r (set_hook_core r p s) := by
  obtain ⟨⟨hh1, hh2⟩, hm1, hm2⟩ := h
  rw [set_hook_core_eq]
  cases hr : incompatReason r with
  | none =>
      refine ⟨⟨?_, ?_⟩, ?_, ?_⟩
      · intro _; exact ⟨p, rfl, hp⟩
      · intro hc; exact absurd rfl hc
      · intro _; exact ⟨by simp, (hm1 hr).2⟩
      · intro rs hrs; rw [hr] at hrs; exact absurd hrs (by simp)
  | some rs =>
      have hpath : s.hook_path = none := by
        rcases hm2 rs hr with ⟨hm, _⟩ | ⟨hm, _⟩ <;>
          · exact hh2 (by rw [hm]; simp)
      refine ⟨⟨?_, ?_⟩, ?_, ?_⟩
      · intro hc; exact absurd hc (by simp [set_incompatible])
      · intro _; simpa [set_incompatible] using hpath
      · intro hn; rw [hr] at hn; exact absurd hn (by simp)
      · intro rs' hrs'; rw [hr] at hrs'
        left
        refine ⟨rfl, ?_⟩
        simpa [set_incompatible] using Option.some.inj hrs'

lemma settingsInv_set_disabled_core (r : RepoCtx) (s : FsmonitorSettings) :
    settingsInv r (set_disabled_core s) := by
  refine ⟨⟨?_, ?_⟩, ?_, ?_⟩ <;> simp [set_disabled_core]

lemma settingsInv_check_deprecated (r : RepoCtx) (s : FsmonitorSettings)
    (sup : Bool) (c : Nat) (h : settingsInv r s) :
    settingsInv r (check_deprecated_builtin_config r s sup c).2.1 := by
  unfold check_deprecated_builtin_config
  cases r.useBuiltinFSMonitor with
  | none => exact h
  | some b =>
      cases b with
      | true => exact settingsInv_set_ipc_core r s h
      | false => exact h

lemma resolveFresh_settingsInv (r : RepoCtx) (sup : Bool) (c : Nat) :
    settingsInv r (resolveFresh r sup c).1 := by
  unfold resolveFresh
  cases r.coreFsmonitor with
  | bool b =>
      cases b with
      | true => exact settingsInv_set_ipc_core r freshSettings (settingsInv_fresh r)
      | false => exact settingsInv_fresh r
  | unset =>
      have hinv := settingsInv_check_deprecated r freshSettings sup c
        (settingsInv_fresh r)
      rcases hdep : check_deprecated_builtin_config r freshSettings sup c with
        ⟨handled, s, sup', cnt⟩
      rw [hdep] at hinv
      cases handled with
      | true => exact hinv
      | false =>
          cases henv : r.gitTestFsmonitor with
          | none => exact hinv
          | some str =>
              by_cases hstr : str = ""
              · simp only [hstr, if_pos rfl]; exact hinv
              · simp only [if_neg hstr]
                exact settingsInv_set_hook_core r str hstr s hinv
  | str v =>
      have hinv := settingsInv_check_deprecated r freshSettings sup c
        (settingsInv_fresh r)
      rcases hdep : check_deprecated_builtin_config r freshSettings sup c with
        ⟨handled, s, sup', cnt⟩
      rw [hdep] at hinv
      cases handled with
      | true => exact hinv
      | false =>
          by_cases hstr : v = ""
          · simp only [hstr, if_pos rfl]; exact hinv
          · simp only [if_neg hstr]
            exact settingsInv_set_hook_core r v hstr s hinv

lemma lookup_cached (r : RepoCtx) (st : SysState) (s : FsmonitorSettings)
    (h : st.fsmonitor = some s) : lookup_fsmonitor_settings r st = st := by
  unfold lookup_fsmonitor_settings
  rw [h]

lemma lookup_isSome (r : RepoCtx) (st : SysState) :
    ((lookup_fsmonitor_settings r st).fsmonitor).isSome = true := by
  unfold lookup_fsmonitor_settings
  cases h : st.fsmonitor <;> simp [h]

lemma get_mode_cached (r : RepoCtx) (st : SysState) (s : FsmonitorSettings)
    (h : st.fsmonitor = some s) : (fsm_settings__get_mode r st).1 = s.mode := by
  unfold fsm_settings__get_mode
  rw [lookup_cached r st s h, h]
  rfl

lemma get_reason_cached (r : RepoCtx) (st : SysState) (s : FsmonitorSettings)
    (h : st.fsmonitor = some s) :
    (fsm_settings__get_reason r st).1 = s.reason := by
  unfold fsm_settings__get_reason
  rw [lookup_cached r st s h, h]
  rfl

lemma get_hook_path_cached (r : RepoCtx) (st : SysState) (s : FsmonitorSettings)
    (h : st.fsmonitor = some s) :
    (fsm_settings__get_hook_path r st).1 = s.hook_path := by
  unfold fsm_settings__get_hook_path
  rw [lookup_cached r st s h, h]
  rfl

lemma adviceUpdate_inv (sup : Bool) (c : Nat) (h1 : c ≤ 1)
    (h2 : sup = false → c = 0) :
    (adviceUpdate sup c).2 ≤ 1 ∧
    ((adviceUpdate sup c).1 = false → (adviceUpdate sup c).2 = 0) := by
  unfold adviceUpdate
  by_cases hs : sup = false
  · rw [if_pos hs]
    exact ⟨by rw [h2 hs], by intro hc; exact absurd hc (by simp)⟩
  · rw [if_neg hs]
    exact ⟨h1, h2⟩

lemma check_deprecated_advice_inv (r : RepoCtx) (s : FsmonitorSettings)
    (sup : Bool) (c : Nat) (h1 : c ≤ 1) (h2 : sup = false → c = 0) :
    (check_deprecated_builtin_config r s sup c).2.2.2 ≤ 1 ∧
    ((check_deprecated_builtin_config r s sup c).2.2.1 = false →
     (check_deprecated_builtin_config r s sup c).2.2.2 = 0) := by
  unfold check_deprecated_builtin_config
  cases r.useBuiltinFSMonitor with
  | none => exact ⟨h1, h2⟩
  | some b => cases b <;> simpa using adviceUpdate_inv sup c h1 h2

lemma resolveFresh_advice_inv (r : RepoCtx) (sup : Bool) (c : Nat)
    (h1 : c ≤ 1) (h2 : sup = false → c = 0) :
    (resolveFresh r sup c).2.2 ≤ 1 ∧
    ((resolveFresh r sup c).2.1 = false → (resolveFresh r sup c).2.2 = 0) := by
  unfold resolveFresh
  cases r.coreFsmonitor with
  | bool b => exact ⟨h1, h2⟩
  | unset =>
      have hadv := check_deprecated_advice_inv r freshSettings sup c h1 h2
      rcases hdep : check_deprecated_builtin_config r freshSettings sup c with
        ⟨handled, s, sup', cnt⟩
      rw [hdep] at hadv
      cases handled with
      | true => exact hadv
      | false =>
          cases henv : r.gitTestFsmonitor with
          | none => exact hadv
          | some str => exact hadv
  | str v =>
      have hadv := check_deprecated_advice_inv r freshSettings sup c h1 h2
      rcases hdep : check_deprecated_builtin_config r freshSettings sup c with
        ⟨handled, s, sup', cnt⟩
      rw [hdep] at hadv
      cases handled with
      | true => exact hadv
      | false => exact hadv

lemma SysInv_lookup (r : RepoCtx) (st : SysState) (h : SysInv r st) :
    SysInv r (lookup_fsmonitor_settings r st) := by
  obtain ⟨hset, h1, h2⟩ := h
  unfold lookup_fsmonitor_settings
  cases hst : st.fsmonitor with
  | some s =>
      exact ⟨hset, h1, h2⟩
  | none =>
      refine ⟨?_, ?_, ?_⟩
      · intro s hs
        simp only [Option.some.injEq] at hs
        rw [← hs]
        exact resolveFresh_settingsInv r st.suppressAdvice st.adviceCount
      · exact (resolveFresh_advice_inv r st.suppressAdvice st.adviceCount h1 h2).1
      · exact (resolveFresh_advice_inv r st.suppressAdvice st.adviceCount h1 h2).2

lemma SysInv_set_ipc (r : RepoCtx) (st : SysState) (h : SysInv r st) :
    SysInv r (fsm_settings__set_ipc r st) := by
  have hl := SysInv_lookup r st h
  unfold fsm_settings__set_ipc
  cases hfs : (lookup_fsmonitor_settings r st).fsmonitor with
  | none => simpa only [hfs] using hl
  | some s =>
      simp only [hfs]
      refine ⟨?_, hl.2.1, hl.2.2⟩
      intro s' hs'
      simp only [Option.some.injEq] at hs'
      rw [← hs']
      exact settingsInv_set_ipc_core r s (hl.1 s hfs)

lemma SysInv_set_hook (r : RepoCtx) (st : SysState) (p : String) (hp : p ≠ "")
    (h : SysInv r st) : SysInv r (fsm_settings__set_hook r p st) := by
  have hl := SysInv_lookup r st h
  unfold fsm_settings__set_hook
  cases hfs : (lookup_fsmonitor_settings r st).fsmonitor with
  | none => simpa only [hfs] using hl
  | some s =>
      simp only [hfs]
      refine ⟨?_, hl.2.1, hl.2.2⟩
      intro s' hs'
      simp only [Option.some.injEq] at hs'
      rw [← hs']
      exact settingsInv_set_hook_core r p hp s (hl.1 s hfs)

lemma SysInv_set_disabled (r : RepoCtx) (st : SysState) (h : SysInv r st) :
    SysInv r (fsm_settings__set_disabled r st) := by
  have hl := SysInv_lookup r st h
  unfold fsm_settings__set_disabled
  cases hfs : (lookup_fsmonitor_settings r st).fsmonitor with
  | none => simpa only [hfs] using hl
  | some s =>
      simp only [hfs]
      refine ⟨?_, hl.2.1, hl.2.2⟩
      intro s' hs'
      simp only [Option.some.injEq] at hs'
      rw [← hs']
      exact settingsInv_set_disabled_core r s

lemma reach_SysInv {r : RepoCtx} {st : SysState} (h : Reach r st) :
    SysInv r st := by
  induction h with
  | init b =>
      refine ⟨?_, by simp, fun _ => rfl⟩
      intro s hs
      exact absurd hs (by simp)
  | step _ hstep ih =>
      cases hstep with
      | get_mode => exact SysInv_lookup r _ ih
      | get_hook_path => exact SysInv_lookup r _ ih
      | get_reason => exact SysInv_lookup r _ ih
      | set_ipc => exact SysInv_set_ipc r _ ih
      | set_hook p hp => exact SysInv_set_hook r _ p hp ih
      | set_disabled => exact SysInv_set_disabled r _ ih
      | error_if_incompatible => exact SysInv_lookup r _ ih

/-- A fresh process state: settings not yet allocated, suppression variable
unset, no advisory emitted. -/
def st0 : SysState := ⟨none, false, 0⟩

/-- A compatible context (worktree present, no platform probe) with all
fsmonitor configuration unset. -/
def ctxCompatible : RepoCtx :=
  ⟨some ("/wt"), "/cwd", ConfigTri.unset, none, none, none⟩

/-- A compatible context with "core.fsmonitor" unset, the deprecated alias
set to false, and GIT_TEST_FSMONITOR naming a hook. -/
def ctxAliasFalseEnvHook : RepoCtx :=
  ⟨some ("/wt"), "/cwd", ConfigTri.unset, some false, some ("/y/hook"), none⟩

/-- A bare context with every config key and environment variable unset. -/
def ctxBareAllUnset : RepoCtx :=
  ⟨none, "/cwd", ConfigTri.unset, none, none, none⟩

/-- A bare context with "core.fsmonitor" set to boolean true. -/
def ctxBareBoolTrue : RepoCtx :=
  ⟨none, "/cwd", ConfigTri.bool true, none, none, none⟩

/-- A bare context with "core.fsmonitor" set to a hook pathname. -/
def ctxBareStr : RepoCtx :=
  ⟨none, "/cwd", ConfigTri.str ("/x/hook"), none, none, none⟩

/-- A compatible context with "core.fsmonitor" set to boolean false while
both the deprecated alias and the environment variable would enable. -/
def ctxBoolFalse : RepoCtx :=
  ⟨some ("/wt"), "/cwd", ConfigTri.bool false, some true, some ("/y/hook"), none⟩

/-- A compatible context with "core.fsmonitor" unset and the deprecated
alias set to true. -/
def ctxAliasTrue : RepoCtx :=
  ⟨some ("/wt"), "/cwd", ConfigTri.unset, some true, none, none⟩

/-- A compatible context with "core.fsmonitor" unset and GIT_TEST_FSMONITOR
naming a hook. -/
def ctxCompatHook : RepoCtx :=
  ⟨some ("/wt"), "/cwd", ConfigTri.unset, none, some ("/y/hook"), none⟩

/-- A compatible context with "core.fsmonitor" set to a hook pathname and
the deprecated alias set to false. -/
def ctxStrAliasFalse : RepoCtx :=
  ⟨some ("/wt"), "/cwd", ConfigTri.str ("/x/hook"), some false, none, none⟩

/-- Claim C1 (counterexample): with "core.fsmonitor" unset, the deprecated
alias present with value false, and GIT_TEST_FSMONITOR naming a hook,
`check_deprecated_builtin_config` reports NOT handled (returns 0), the
environment fallback is consulted, and lazy resolution yields mode Hook, not
Disabled — refuting the claim that an alias value of false is reported as
handled and pins the resolution to Disabled. -/
theorem fsm_C1_counterexample :
    (check_deprecated_builtin_config ctxAliasFalseEnvHook freshSettings
       false 0).1 = false ∧
    (fsm_settings__get_mode ctxAliasFalseEnvHook st0).1 = FsmonitorMode.hook ∧
    FsmonitorMode.hook ≠ FsmonitorMode.disabled := by
  decide

/-- Claim C1 (amended): if the deprecated alias key is present with value
false, resolution is reported as NOT handled and the settings are left
untouched by the alias check; resolution continues, so on a context that
passes the incompatibility check: with the primary key unset the
environment-variable fallback is consulted and determines the resolved mode
(Hook for a non-empty value, Disabled otherwise), and with the primary key
set to a string that string IS treated as a hook path (Hook when non-empty,
Disabled otherwise). -/
theorem fsm_C1_amended (r : RepoCtx) (st : SysState) (s : FsmonitorSettings)
    (sup : Bool) (c : Nat)
    (halias : r.useBuiltinFSMonitor = some false)
    (hfresh : st.fsmonitor = none)
    (hc : incompatReason r = none) :
    (check_deprecated_builtin_config r s sup c).1 = false ∧
    (check_deprecated_builtin_config r s sup c).2.1 = s ∧
    (r.coreFsmonitor = ConfigTri.unset →
      (fsm_settings__get_mode r st).1 =
        (match r.gitTestFsmonitor with
         | none => FsmonitorMode.disabled
         | some p =>
             if p = "" then FsmonitorMode.disabled else FsmonitorMode.hook)) ∧
    (∀ v, r.coreFsmonitor = ConfigTri.str v →
      (fsm_settings__get_mode r st).1 =
        (if v = "" then FsmonitorMode.disabled else FsmonitorMode.hook)) := by
  refine ⟨?_, ?_, ?_, ?_⟩
  · unfold check_deprecated_builtin_config
    simp [halias]
  · unfold check_deprecated_builtin_config
    simp [halias]
  · intro hunset
    unfold fsm_settings__get_mode lookup_fsmonitor_settings resolveFresh
      check_deprecated_builtin_config
    simp only [hfresh, hunset, halias]
    cases henv : r.gitTestFsmonitor with
    | none => simp [freshSettings]
    | some p =>
        by_cases hp : p = ""
        · simp [hp, freshSettings]
        · simp [hp, set_hook_core_eq, hc, freshSettings]
  · intro v hstr
    unfold fsm_settings__get_mode lookup_fsmonitor_settings resolveFresh
      check_deprecated_builtin_config
    simp only [hfresh, hstr, halias]
    by_cases hp : v = ""
    · simp [hp, freshSettings]
    · simp [hp, set_hook_core_eq, hc, freshSettings]

/-- Closed witness for the amended C1: with the alias false, the check
reports not handled and leaves the settings alone; an unset primary key with
an environment hook resolves to Hook, and a string primary key resolves to
Hook as well. -/
theorem fsm_C1_amended_witness :
    (check_deprecated_builtin_config ctxAliasFalseEnvHook freshSettings
       false 0).1 = false ∧
    (check_deprecated_builtin_config ctxAliasFalseEnvHook freshSettings
       false 0).2.1 = freshSettings ∧
    (fsm_settings__get_mode ctxAliasFalseEnvHook st0).1 =
      FsmonitorMode.hook ∧
    (fsm_settings__get_mode ctxStrAliasFalse st0).1 = FsmonitorMode.hook := by
  have h := fsm_C1_amended ctxAliasFalseEnvHook st0 freshSettings
    false 0 rfl rfl rfl
  have h' := fsm_C1_amended ctxStrAliasFalse st0 freshSettings
    false 0 rfl rfl rfl
  exact ⟨h.1, h.2.1, (h.2.2.1 rfl).trans (by decide),
         (h'.2.2.2 ("/x/hook") rfl).trans (by decide)⟩

/-- Claim C2 (counterexample): a bare repository context with every config
key and environment variable unset resolves to mode Disabled with reason Ok,
not to Incompatible(Bare) — refuting the claim that a bare context resolves
to Incompatible(Bare) for every combination of config and environment. -/
theorem fsm_C2_counterexample :
    (fsm_settings__get_mode ctxBareAllUnset st0).1 = FsmonitorMode.disabled ∧
    (fsm_settings__get_reason ctxBareAllUnset st0).1 = FsmonitorReason.ok ∧
    FsmonitorMode.disabled ≠ FsmonitorMode.incompatible ∧
    FsmonitorReason.ok ≠ FsmonitorReason.bare := by
  decide

/-- Whether, on a bare repository, some configuration or environment value
makes lazy resolution attempt to enable fsmonitor (invoke set_ipc or
set_hook): primary boolean true, or alias true, or (alias not true) a
non-empty primary string / non-empty environment fallback. -/
def bareEnables (r : RepoCtx) : Bool :=
  match r.coreFsmonitor with
  | ConfigTri.bool b => b
  | ConfigTri.unset =>
      match r.useBuiltinFSMonitor with
      | some true => true
      | _ =>
          match r.gitTestFsmonitor with
          | some p => if p = "" then false else true
          | none => false
  | ConfigTri.str v =>
      match r.useBuiltinFSMonitor with
      | some true => true
      | _ => if v = "" then false else true

/-- Claim C2 (amended): a bare repository context never resolves to IPC or
Hook: lazy resolution pins Incompatible(Bare) exactly when some
configuration or environment value would enable fsmonitor, and otherwise
leaves the Disabled/Ok defaults. -/
theorem fsm_C2_amended (r : RepoCtx) (st : SysState)
    (hbare : r.worktree = none) (hfresh : st.fsmonitor = none) :
    ((lookup_fsmonitor_settings r st).fsmonitor).getD freshSettings =
      (if bareEnables r then
         ⟨FsmonitorMode.incompatible, FsmonitorReason.bare, none⟩
       else freshSettings) := by
  have hr : incompatReason r = some FsmonitorReason.bare := by
    unfold incompatReason
    rw [hbare]
  unfold lookup_fsmonitor_settings
  simp only [hfresh, Option.getD_some]
  unfold resolveFresh bareEnables check_deprecated_builtin_config
  cases r.coreFsmonitor with
  | bool b =>
      cases b with
      | true => simp [set_ipc_core_eq, hr, set_incompatible, freshSettings]
      | false => simp
  | unset =>
      cases hal : r.useBuiltinFSMonitor with
      | some b =>
          cases b with
          | true => simp [set_ipc_core_eq, hr, set_incompatible, freshSettings]
          | false =>
              simp only [Bool.false_eq_true, if_false]
              cases henv : r.gitTestFsmonitor with
              | none => simp
              | some p =>
                  by_cases hp : p = ""
                  · simp [hp]
                  · simp [hp, set_hook_core_eq, hr, set_incompatible,
                          freshSettings]
      | none =>
          cases henv : r.gitTestFsmonitor with
          | none => simp
          | some p =>
              by_cases hp : p = ""
              · simp [hp]
              · simp [hp, set_hook_core_eq, hr, set_incompatible,
                      freshSettings]
  | str v =>
      cases hal : r.useBuiltinFSMonitor with
      | some b =>
          cases b with
          | true => simp [set_ipc_core_eq, hr, set_incompatible, freshSettings]
          | false =>
              by_cases hp : v = ""
              · simp [hp]
              · simp [hp, set_hook_core_eq, hr, set_incompatible,
                      freshSettings]
      | none =>
          by_cases hp : v = ""
          · simp [hp]
          · simp [hp, set_hook_core_eq, hr, set_incompatible, freshSettings]

/-- Closed witness for the amended C2: a bare context whose primary key
names a hook pathname pins Incompatible(Bare). -/
theorem fsm_C2_amended_witness :
    ((lookup_fsmonitor_settings ctxBareStr st0).fsmonitor).getD freshSettings =
      (if bareEnables ctxBareStr then
         ⟨FsmonitorMode.incompatible, FsmonitorReason.bare, none⟩
       else freshSettings) :=
  fsm_C2_amended ctxBareStr st0 rfl rfl

/-- Claim C3: for every context that passes the incompatibility check and
every reachable prior state, `fsm_settings__set_hook(context, path)`
establishes mode == Hook, reason == Ok, and hookPath == path (the reason is
Ok because a compatible context can never have left the Ok reason behind). -/
theorem fsm_C3_set_hook_postcondition (r : RepoCtx) (st : SysState)
    (path : String) (hreach : Reach r st)
    (hc : incompatReason r = none) :
    (fsm_settings__set_hook r path st).fsmonitor =
      some ⟨FsmonitorMode.hook, FsmonitorReason.ok, some path⟩ := by
  have hinv := SysInv_lookup r st (reach_SysInv hreach)
  unfold fsm_settings__set_hook
  cases hfs : (lookup_fsmonitor_settings r st).fsmonitor with
  | none =>
      have hsome := lookup_isSome r st
      rw [hfs] at hsome
      exact absurd hsome (by simp)
  | some s =>
      simp only [hfs]
      have hreason : s.reason = FsmonitorReason.ok := ((hinv.1 s hfs).2.1 hc).2
      simp only [set_hook_core_eq, hc]
      cases s with
      | mk m re hp => simp_all

/-- Closed witness for C3 at a concrete compatible context and the initial
state. -/
theorem fsm_C3_witness :
    (fsm_settings__set_hook ctxCompatible ("/x/hook") st0).fsmonitor =
      some ⟨FsmonitorMode.hook, FsmonitorReason.ok, some ("/x/hook")⟩ :=
  fsm_C3_set_hook_postcondition ctxCompatible st0 ("/x/hook")
    (Reach.init false) rfl

/-- Claim C4: for every reachable state whose cached settings are pinned to
Incompatible, `fsm_settings__set_ipc` and `fsm_settings__set_hook` leave the
cached settings (mode, reason and hook path) exactly as they were. -/
theorem fsm_C4_pinned_noop (r : RepoCtx) (st : SysState)
    (s : FsmonitorSettings) (hreach : Reach r st)
    (hs : st.fsmonitor = some s)
    (hpin : s.mode = FsmonitorMode.incompatible) :
    (fsm_settings__set_ipc r st).fsmonitor = some s ∧
    ∀ p, (fsm_settings__set_hook r p st).fsmonitor = some s := by
  obtain ⟨⟨hh1, hh2⟩, hm1, hm2⟩ := (reach_SysInv hreach).1 s hs
  have hlk : lookup_fsmonitor_settings r st = st := lookup_cached r st s hs
  cases hr : incompatReason r with
  | none => exact absurd hpin (hm1 hr).1
  | some rs =>
      have hre : s.reason = rs := by
        rcases hm2 rs hr with ⟨_, h⟩ | ⟨hd, _⟩
        · exact h
        · rw [hpin] at hd
          exact absurd hd (by simp)
      have hpinned : set_incompatible rs s = s := by
        cases s with
        | mk m re hp =>
            unfold set_incompatible
            simp_all
      constructor
      · unfold fsm_settings__set_ipc
        rw [hlk, hs]
        simp [set_ipc_core_eq, hr, hpinned]
      · intro p
        unfold fsm_settings__set_hook
        rw [hlk, hs]
        simp [set_hook_core_eq, hr, hpinned]

/-- Closed witness for C4: a bare context pinned by resolution of a boolean
true primary key; set_ipc and set_hook leave the pinned settings intact. -/
theorem fsm_C4_witness :
    (fsm_settings__set_ipc ctxBareBoolTrue
       (lookup_fsmonitor_settings ctxBareBoolTrue st0)).fsmonitor =
      some ⟨FsmonitorMode.incompatible, FsmonitorReason.bare, none⟩ ∧
    (fsm_settings__set_hook ctxBareBoolTrue ("/x/hook")
       (lookup_fsmonitor_settings ctxBareBoolTrue st0)).fsmonitor =
      some ⟨FsmonitorMode.incompatible, FsmonitorReason.bare, none⟩ := by
  have h := fsm_C4_pinned_noop ctxBareBoolTrue
    (lookup_fsmonitor_settings ctxBareBoolTrue st0)
    ⟨FsmonitorMode.incompatible, FsmonitorReason.bare, none⟩
    (Reach.step (Reach.init false) (Step.get_mode st0)) rfl rfl
  exact ⟨h.1, h.2 ("/x/hook")⟩

/-- Claim C5: invariant over every reachable state (lazy resolution,
set_ipc, set_hook with a non-empty path, set_disabled, and the
incompatibility pin): the cached hook path is a non-empty string if and only
if the cached mode is Hook; in particular the hook path is none whenever the
mode is not Hook. -/
theorem fsm_C5_hook_path_iff (r : RepoCtx) (st : SysState)
    (s : FsmonitorSettings) (hreach : Reach r st)
    (hs : st.fsmonitor = some s) :
    ((∃ p, s.hook_path = some p ∧ p ≠ "") ↔ s.mode = FsmonitorMode.hook) ∧
    (s.mode ≠ FsmonitorMode.hook → s.hook_path = none) := by
  obtain ⟨⟨hh1, hh2⟩, _⟩ := (reach_SysInv hreach).1 s hs
  refine ⟨⟨?_, hh1⟩, hh2⟩
  rintro ⟨p, hp1, hp2⟩
  by_contra hmode
  rw [hh2 hmode] at hp1
  exact absurd hp1 (by simp)

/-- Closed witness for C5 on the state reached by resolving a compatible
context whose environment variable names a hook. -/
theorem fsm_C5_witness :
    ((∃ p, (⟨FsmonitorMode.hook, FsmonitorReason.ok, some ("/y/hook")⟩ :
        FsmonitorSettings).hook_path = some p ∧ p ≠ "") ↔
      (⟨FsmonitorMode.hook, FsmonitorReason.ok, some ("/y/hook")⟩ :
        FsmonitorSettings).mode = FsmonitorMode.hook) ∧
    ((⟨FsmonitorMode.hook, FsmonitorReason.ok, some ("/y/hook")⟩ :
        FsmonitorSettings).mode ≠ FsmonitorMode.hook →
      (⟨FsmonitorMode.hook, FsmonitorReason.ok, some ("/y/hook")⟩ :
        FsmonitorSettings).hook_path = none) :=
  fsm_C5_hook_path_iff ctxCompatHook
    (lookup_fsmonitor_settings ctxCompatHook st0)
    ⟨FsmonitorMode.hook, FsmonitorReason.ok, some ("/y/hook")⟩
    (Reach.step (Reach.init false) (Step.get_mode st0)) rfl

/-- Claim C6: for every context and every prior state (reachable or not,
including a pinned Incompatible one), `fsm_settings__set_disabled`
unconditionally leaves the cached settings at mode Disabled, reason Ok, with
no hook path. -/
theorem fsm_C6_set_disabled_unconditional (r : RepoCtx) (st : SysState) :
    (fsm_settings__set_disabled r st).fsmonitor =
      some ⟨FsmonitorMode.disabled, FsmonitorReason.ok, none⟩ := by
  unfold fsm_settings__set_disabled
  cases hfs : (lookup_fsmonitor_settings r st).fsmonitor with
  | none =>
      have hsome := lookup_isSome r st
      rw [hfs] at hsome
      exact absurd hsome (by simp)
  | some s =>
      simp only [hfs]
      cases s with
      | mk m re hp => simp [set_disabled_core]

/-- Claim C7: if "core.fsmonitor" is set to boolean false, lazy resolution
yields mode Disabled for every value of the deprecated alias key and of the
environment variable, and neither is consulted: the advisory state
(suppression variable and emission count) is untouched. -/
theorem fsm_C7_bool_false_short_circuits (r : RepoCtx) (st : SysState)
    (hb : r.coreFsmonitor = ConfigTri.bool false)
    (hfresh : st.fsmonitor = none) :
    (fsm_settings__get_mode r st).1 = FsmonitorMode.disabled ∧
    (fsm_settings__get_mode r st).2.suppressAdvice = st.suppressAdvice ∧
    (fsm_settings__get_mode r st).2.adviceCount = st.adviceCount := by
  unfold fsm_settings__get_mode lookup_fsmonitor_settings resolveFresh
  simp [hfresh, hb, freshSettings]

/-- Closed witness for C7: boolean false primary key with alias true and an
environment hook path still resolves Disabled without touching the advisory
state. -/
theorem fsm_C7_witness :
    (fsm_settings__get_mode ctxBoolFalse st0).1 = FsmonitorMode.disabled ∧
    (fsm_settings__get_mode ctxBoolFalse st0).2.suppressAdvice =
      st0.suppressAdvice ∧
    (fsm_settings__get_mode ctxBoolFalse st0).2.adviceCount =
      st0.adviceCount :=
  fsm_C7_bool_false_short_circuits ctxBoolFalse st0 rfl rfl

/-- Claim C8: with the primary key unset and the deprecated alias key true,
a compatible context resolves to mode IPC; and in every reachable state of
the process the deprecation advisory has been emitted at most once (the
process-wide suppression guard prevents a second emission). -/
theorem fsm_C8_alias_true_ipc_advice_once (r : RepoCtx) (st : SysState)
    (hunset : r.coreFsmonitor = ConfigTri.unset)
    (halias : r.useBuiltinFSMonitor = some true)
    (hc : incompatReason r = none)
    (hfresh : st.fsmonitor = none) :
    (fsm_settings__get_mode r st).1 = FsmonitorMode.ipc ∧
    (∀ st', Reach r st' → st'.adviceCount ≤ 1) := by
  constructor
  · unfold fsm_settings__get_mode lookup_fsmonitor_settings resolveFresh
      check_deprecated_builtin_config
    simp [hfresh, hunset, halias, set_ipc_core_eq, hc, freshSettings]
  · intro st' h
    exact (reach_SysInv h).2.1

/-- Closed witness for C8 at a concrete compatible context with the alias
set to true. -/
theorem fsm_C8_witness :
    (fsm_settings__get_mode ctxAliasTrue st0).1 = FsmonitorMode.ipc ∧
    (∀ st', Reach ctxAliasTrue st' → st'.adviceCount ≤ 1) :=
  fsm_C8_alias_true_ipc_advice_once ctxAliasTrue st0 rfl rfl rfl rfl

/-- Claim C9: `fsm_settings__error_if_incompatible` performs no state change
beyond the lazy lookup; it returns 0 and no message when the resolved reason
is Ok, and 1 with the reason-specific message for each of Bare, Error,
Remote, VFS and NoSockets; and any integer reason value outside the
recognized discriminants falls through to the BUG abort (modelled as `none`)
rather than being silently swallowed. -/
theorem fsm_C9_error_if_incompatible (r : RepoCtx) (st : SysState) :
    (fsm_settings__error_if_incompatible r st).2 =
      lookup_fsmonitor_settings r st ∧
    ((fsm_settings__get_reason r st).1 = FsmonitorReason.ok →
      (fsm_settings__error_if_incompatible r st).1 = some (0, none)) ∧
    ((fsm_settings__get_reason r st).1 = FsmonitorReason.bare →
      (fsm_settings__error_if_incompatible r st).1 =
        some (1, some ("bare repository " ++ r.cwd ++
          " is incompatible with fsmonitor"))) ∧
    ((fsm_settings__get_reason r st).1 = FsmonitorReason.err →
      (fsm_settings__error_if_incompatible r st).1 =
        some (1, some ("repository " ++ (r.worktree).getD "" ++
          " is incompatible with fsmonitor due to errors"))) ∧
    ((fsm_settings__get_reason r st).1 = FsmonitorReason.remote →
      (fsm_settings__error_if_incompatible r st).1 =
        some (1, some ("remote repository " ++ (r.worktree).getD "" ++
          " is incompatible with fsmonitor"))) ∧
    ((fsm_settings__get_reason r st).1 = FsmonitorReason.vfs4git →
      (fsm_settings__error_if_incompatible r st).1 =
        some (1, some ("virtual repository " ++ (r.worktree).getD "" ++
          " is incompatible with fsmonitor"))) ∧
    ((fsm_settings__get_reason r st).1 = FsmonitorReason.nosockets →
      (fsm_settings__error_if_incompatible r st).1 =
        some (1, some ("repository " ++ (r.worktree).getD "" ++
          " is incompatible with fsmonitor due to lack of Unix sockets"))) ∧
    (∀ code : Int, code < 0 ∨ 5 < code →
      error_switch r.cwd ((r.worktree).getD "") code = none) := by
  refine ⟨rfl, ?_, ?_, ?_, ?_, ?_, ?_, ?_⟩
  · intro h
    unfold fsm_settings__error_if_incompatible
    rw [h]
    rfl
  · intro h
    unfold fsm_settings__error_if_incompatible
    rw [h]
    rfl
  · intro h
    unfold fsm_settings__error_if_incompatible
    rw [h]
    rfl
  · intro h
    unfold fsm_settings__error_if_incompatible
    rw [h]
    rfl
  · intro h
    unfold fsm_settings__error_if_incompatible
    rw [h]
    rfl
  · intro h
    unfold fsm_settings__error_if_incompatible
    rw [h]
    rfl
  · intro code hcode
    have h0 : ¬code = 0 := by rcases hcode with h | h <;> omega
    have h1 : ¬code = 1 := by rcases hcode with h | h <;> omega
    have h2 : ¬code = 2 := by rcases hcode with h | h <;> omega
    have h3 : ¬code = 3 := by rcases hcode with h | h <;> omega
    have h4 : ¬code = 4 := by rcases hcode with h | h <;> omega
    have h5 : ¬code = 5 := by rcases hcode with h | h <;> omega
    simp [error_switch, h0, h1, h2, h3, h4, h5]

/-- Closed witness for C9: a bare context pinned by resolution reports 1
with the bare-repository message, and discriminant 6 reaches the BUG case. -/
theorem fsm_C9_witness :
    (fsm_settings__error_if_incompatible ctxBareBoolTrue st0).1 =
      some (1, some ("bare repository " ++ ctxBareBoolTrue.cwd ++
        " is incompatible with fsmonitor")) ∧
    error_switch ctxBareBoolTrue.cwd
      ((ctxBareBoolTrue.worktree).getD "") 6 = none := by
  constructor
  · exact (fsm_C9_error_if_incompatible ctxBareBoolTrue st0).2.2.1 rfl
  · exact (fsm_C9_error_if_incompatible ctxBareBoolTrue
      st0).2.2.2.2.2.2.2 6 (by omega)

/-- Claim C10: the non-empty-path precondition of set_hook is not enforced
at the interface: on a context that passes the incompatibility check,
calling `fsm_settings__set_hook` with the empty string sets mode Hook while
storing an empty hook path; the guard rejecting NULL or empty strings exists
only on the lazy-resolution path, where an empty environment value leaves
the mode Disabled. -/
theorem fsm_C10_empty_path_not_rejected (r : RepoCtx) (st : SysState)
    (hc : incompatReason r = none) :
    ((((fsm_settings__set_hook r ("") st).fsmonitor).getD
        freshSettings).mode = FsmonitorMode.hook ∧
     (((fsm_settings__set_hook r ("") st).fsmonitor).getD
        freshSettings).hook_path = some ("")) ∧
    (r.coreFsmonitor = ConfigTri.unset → r.useBuiltinFSMonitor = none →
     r.gitTestFsmonitor = some ("") → st.fsmonitor = none →
     (fsm_settings__get_mode r st).1 = FsmonitorMode.disabled) := by
  constructor
  · unfold fsm_settings__set_hook
    cases hfs : (lookup_fsmonitor_settings r st).fsmonitor with
    | none =>
        have hsome := lookup_isSome r st
        rw [hfs] at hsome
        exact absurd hsome (by simp)
    | some s =>
        simp only [hfs]
        constructor <;> simp [set_hook_core_eq, hc]
  · intro hunset halias henv hfresh
    unfold fsm_settings__get_mode lookup_fsmonitor_settings resolveFresh
      check_deprecated_builtin_config
    simp [hfresh, hunset, halias, henv, freshSettings]

/-- Closed witness for C10 at a concrete compatible context. -/
theorem fsm_C10_witness :
    ((((fsm_settings__set_hook ctxCompatible ("") st0).fsmonitor).getD
        freshSettings).mode = FsmonitorMode.hook ∧
     (((fsm_settings__set_hook ctxCompatible ("") st0).fsmonitor).getD
        freshSettings).hook_path = some ("")) ∧
    (ctxCompatible.coreFsmonitor = ConfigTri.unset →
     ctxCompatible.useBuiltinFSMonitor = none →
     ctxCompatible.gitTestFsmonitor = some ("") → st0.fsmonitor = none →
     (fsm_settings__get_mode ctxCompatible st0).1 =
       FsmonitorMode.disabled) :=
  fsm_C10_empty_path_not_rejected ctxCompatible st0 rfl
